import Mathlib

/-!
Verification of the app-longevity prediction pipeline
(`backend/models/prediction_model.py`, `backend/services/model_manager.py`)
as a shallow embedding: Python dicts become association lists, values become
a small scalar type, machine floats become rationals, fallible steps return
`Except String` (the string is the exception message) and every blanket
`try/except` boundary is an explicit `match` on that `Except`.
-/

namespace ALS

/-- Scalar values stored in an app-data record (Python: numbers, strings,
booleans; `None` is represented separately as `Option.none`). -/
inductive Value where
  | num (q : ℚ)
  | str (s : String)
  | bool (b : Bool)
deriving DecidableEq, Repr

/-- Python truthiness of a scalar value (`0`, `""`, `False` are falsy). -/
def Value.truthy : Value → Bool
  | .num q => q ≠ 0
  | .str s => s ≠ ""
  | .bool b => b

/-- Python numeric coercion used by comparisons/arithmetic: numbers are
themselves, booleans coerce to 0/1, strings raise `TypeError` (`none`). -/
def Value.toNum : Value → Option ℚ
  | .num q => some q
  | .str _ => none
  | .bool b => some (if b then 1 else 0)

/-- An app-data record: a Python dict whose values may be `None`
(`Option.none` at the inner layer). Key order is insertion order. -/
abbrev AppRecord := List (String × Option Value)

/-- Dict membership test (`k in d`). -/
def dictHasKey {α : Type} (d : List (String × α)) (k : String) : Bool :=
  d.any (fun p => p.1 == k)

/-- Dict read (`d[k]` / `d.get(k)`): first binding wins; keys are unique by
construction, as in Python dicts. -/
def dictFind {α : Type} (d : List (String × α)) (k : String) : Option α :=
  (d.find? (fun p => p.1 == k)).map Prod.snd

/-- Dict write (`d[k] = v`): replaces in place if the key exists (keeping
its position, as Python dicts do) and appends otherwise. -/
def dictSet {α : Type} (d : List (String × α)) (k : String) (v : α) :
    List (String × α) :=
  if dictHasKey d k then
    d.map (fun p => if p.1 == k then (k, v) else p)
  else
    d ++ [(k, v)]

/-- `d.get(k, default)` on an `AppRecord`: absent key gives the default,
a present-but-`None` value gives `None`. -/
def recGet (d : AppRecord) (k : String) (dflt : Option Value) : Option Value :=
  match dictFind d k with
  | some v => v
  | none => dflt

/-- JSON-like result values (the shape of the dicts the pipeline returns). -/
inductive J where
  | num (q : ℚ)
  | str (s : String)
  | bool (b : Bool)
  | null
  | obj (fields : List (String × J))
  | arr (elems : List J)

/-- Embed a nullable record value into a result value. -/
def optValJ : Option Value → J
  | none => .null
  | some (.num q) => .num q
  | some (.str s) => .str s
  | some (.bool b) => .bool b

/-- The four-field interpretation dict returned by
`_interpret_longevity_score`. -/
structure Interp where
  category : String
  description : String
  expected_lifespan : String
  success_probability : String
deriving DecidableEq, Repr

/-- `_interpret_longevity_score` (prediction_model.py:440-476): fixed
monotone bucket table over the raw score. -/
def interpret_longevity_score (score : ℚ) : Interp :=
  if score ≥ 0.8 then
    { category := "Excellent"
      description := "This app shows strong indicators of long-term success and user retention."
      expected_lifespan := "5+ years"
      success_probability := "Very High" }
  else if score ≥ 0.6 then
    { category := "Good"
      description := "This app has solid fundamentals and is likely to remain viable for years."
      expected_lifespan := "3-5 years"
      success_probability := "High" }
  else if score ≥ 0.4 then
    { category := "Average"
      description := "This app has moderate longevity indicators, typical of the average app."
      expected_lifespan := "1-3 years"
      success_probability := "Medium" }
  else if score ≥ 0.2 then
    { category := "Below Average"
      description := "This app shows some concerning metrics that may limit its lifespan."
      expected_lifespan := "6 months - 1 year"
      success_probability := "Low" }
  else
    { category := "Poor"
      description := "This app shows significant risk factors that suggest a short lifespan."
      expected_lifespan := "Less than 6 months"
      success_probability := "Very Low" }

/-- Rank of an interpretation category, used to state monotonicity of the
bucket table (higher scores land in higher-ranked buckets). -/
def categoryRank : String → ℕ
  | "Poor" => 0
  | "Below Average" => 1
  | "Average" => 2
  | "Good" => 3
  | "Excellent" => 4
  | _ => 5

/-- A recommendation entry (`_generate_recommendations` builds dicts with
exactly these three string fields). -/
structure Recommendation where
  area : String
  issue : String
  recommendation : String
deriving DecidableEq, Repr

/-- Python `v < q` where `v` is a stored scalar: numbers and booleans
compare numerically, a string raises `TypeError`. -/
def pyLt (v : Value) (q : ℚ) : Except String Bool :=
  match v.toNum with
  | some x => .ok (decide (x < q))
  | none => .error "TypeError: unsupported comparison between str and float"

/-- Python `v > q`, same coercion rules as `pyLt`. -/
def pyGt (v : Value) (q : ℚ) : Except String Bool :=
  match v.toNum with
  | some x => .ok (decide (q < x))
  | none => .error "TypeError: unsupported comparison between str and float"

/-- Rating rule block of `_generate_recommendations`
(prediction_model.py:507-519): rating < 3.5 gives the low-rating advice,
3.5 ≤ rating < 4.0 the milder advice, otherwise nothing. -/
def ratingRecs : Option Value → Except String (List Recommendation)
  | none => .ok []
  | some v =>
    match pyLt v 3.5 with
    | .error e => .error e
    | .ok true => .ok
        [{ area := "User Satisfaction", issue := "Low app rating"
           recommendation := "Address common complaints in reviews and consider a major update to improve user experience." }]
    | .ok false =>
      match pyLt v 4.0 with
      | .error e => .error e
      | .ok true => .ok
          [{ area := "User Satisfaction", issue := "Average app rating"
             recommendation := "Focus on improving specific features mentioned in user reviews to increase ratings." }]
      | .ok false => .ok []

/-- Update-cadence rule block (prediction_model.py:522-527):
`days_since_last_update` present and > 90 gives the maintenance advice. -/
def updateRecs : Option Value → Except String (List Recommendation)
  | none => .ok []
  | some v =>
    match pyGt v 90 with
    | .error e => .error e
    | .ok true => .ok
        [{ area := "App Maintenance", issue := "Infrequent updates"
           recommendation := "Establish a regular update schedule to fix bugs and add new features." }]
    | .ok false => .ok []

/-- Sentiment rule block (prediction_model.py:530-535):
`positive_sentiment_ratio` present and < 0.6 gives the sentiment advice. -/
def sentimentRecs : Option Value → Except String (List Recommendation)
  | none => .ok []
  | some v =>
    match pyLt v 0.6 with
    | .error e => .error e
    | .ok true => .ok
        [{ area := "User Sentiment", issue := "Negative user sentiment"
           recommendation := "Analyze user reviews to identify pain points and prioritize addressing them." }]
    | .ok false => .ok []

/-- `_generate_recommendations` (prediction_model.py:497-551): the three
rule blocks append in order, then if fewer than two recommendations were
produced the two generic fillers are appended. A non-numeric stored value
makes a rule comparison raise (`Except.error`); the orchestrator's
catch-all turns that into an error result. -/
def generate_recommendations (app_data : AppRecord) :
    Except String (List Recommendation) :=
  match ratingRecs (recGet app_data "rating" none) with
  | .error e => .error e
  | .ok a =>
    match updateRecs (recGet app_data "days_since_last_update" none) with
    | .error e => .error e
    | .ok b =>
      match sentimentRecs (recGet app_data "positive_sentiment_ratio" none) with
      | .error e => .error e
      | .ok c =>
        let recs := a ++ b ++ c
        .ok (if recs.length < 2 then recs ++
          [{ area := "User Engagement", issue := "Potential engagement improvements"
             recommendation := "Consider adding features that encourage daily app usage, such as notifications, rewards, or social elements." },
           { area := "Monetization", issue := "Revenue optimization"
             recommendation := "Review your monetization strategy compared to competitors in your category." }]
          else recs)

/-- A nullable record value that does not make a numeric comparison raise
(anything but a non-null string). -/
def numericOrNull : Option Value → Bool
  | some (.str _) => false
  | _ => true

/-- The three metrics `_generate_recommendations` reads are absent, null,
or numeric-like, so none of its comparisons raises. -/
def metricsNumeric (r : AppRecord) : Bool :=
  numericOrNull (recGet r "rating" none) &&
    numericOrNull (recGet r "days_since_last_update" none) &&
    numericOrNull (recGet r "positive_sentiment_ratio" none)

/-- Whether a fallible computation succeeded (no exception was raised). -/
def exceptIsOk {α : Type} : Except String α → Bool
  | .ok _ => true
  | .error _ => false

/-- A single feature row (a filled app record: nulls already replaced). -/
abbrev Row := List (String × Value)

/-- An opaque scoring object: `model.predict(df)` returns an array of
predictions and may raise (the orchestrator reads element 0). -/
structure Model where
  predict : Row → Except String (List ℚ)

/-- An opaque scaler/column-transformer: optional introspectable expected
column list (`get_feature_names_out` / `feature_names_in_`, collapsed into
one optional list since the source treats both identically) and a
`transform` that may raise. -/
structure Transform where
  expectedCols : Option (List String)
  transform : Row → Except String Row

/-- Split a character list on a separator character (`str.split(sep)` for
one-character separators; kept at the character level so it computes by
kernel reduction, which the built-in `String.splitOn` does not). -/
def splitOnChar (c : Char) : List Char → List (List Char)
  | [] => [[]]
  | x :: xs =>
    let r := splitOnChar c xs
    if x = c then [] :: r
    else
      match r with
      | y :: ys => (x :: y) :: ys
      | [] => [[x]]

/-- `s.endswith(suffix)` (reducible form of `String.endsWith`). -/
def strEndsWith (s suff : String) : Bool :=
  suff.toList.isSuffixOf s.toList

/-- `s.startswith(p)` (reducible form). -/
def strStartsWith (s p : String) : Bool :=
  p.toList.isPrefixOf s.toList

/-- `needle in hay` on strings (substring containment). -/
def listIsInfixOf (needle : List Char) : List Char → Bool
  | [] => needle.isEmpty
  | x :: t => needle.isPrefixOf (x :: t) || listIsInfixOf needle t

/-- `needle in hay` for strings. -/
def strContains (hay needle : String) : Bool :=
  listIsInfixOf needle.toList hay.toList

/-- ASCII `str.lower()` (the scraped fields the source lowers are ASCII;
kept reducible, unlike `String.toLower`). -/
def charLower (c : Char) : Char :=
  if 'A' ≤ c ∧ c ≤ 'Z' then Char.ofNat (c.toNat + 32) else c

/-- `str.lower()`. -/
def strLower (s : String) : String :=
  String.mk (s.toList.map charLower)

/-- `str.strip()` (reducible form of `String.trim`). -/
def strStrip (s : String) : String :=
  String.mk (((s.toList.dropWhile Char.isWhitespace).reverse.dropWhile
    Char.isWhitespace).reverse)

/-- `os.path.basename` (paths use `/`). -/
def basename (p : String) : String :=
  String.mk ((splitOnChar '/' p.toList).getLastD [])

/-- Index of the last occurrence of a character. -/
def lastIdxOf (c : Char) (cs : List Char) : Option ℕ :=
  ((cs.enum.filter (fun p => p.2 = c)).getLast?).map Prod.fst

/-- `os.path.splitext(p)[0]`: drop the extension starting at the last dot
of the final path component, unless every character before that dot in the
component is itself a dot (so ".bashrc" keeps its name). -/
def splitextFst (p : String) : String :=
  let parts := splitOnChar '/' p.toList
  let base := parts.getLastD []
  match lastIdxOf '.' base with
  | none => p
  | some i =>
    if (base.take i).all (fun c => c = '.') then p
    else String.intercalate "/"
      ((parts.dropLast).map String.mk ++ [String.mk (base.take i)])

/-- `'.' in s`. -/
def containsDot (s : String) : Bool := s.toList.any (fun c => c = '.')

/-- `'_' in s`. -/
def containsUnderscore (s : String) : Bool := s.toList.any (fun c => c = '_')

/-- `os.path.join` for the simple dir/file joins the manager performs. -/
def pathJoin (a b : String) : String :=
  if a = "" then b else a ++ "/" ++ b

/-- `os.path.isabs`. -/
def isAbs (p : String) : Bool := strStartsWith p "/"

/-- The configuration the manager reads (`core/config.py`): default model
name, search paths, recognized extensions, and the services directory used
to resolve relative paths (`os.path.dirname(__file__)`). -/
structure Config where
  DEFAULT_MODEL : String
  MODEL_PATH : String
  ADDITIONAL_MODEL_PATHS : List String
  MODEL_FILE_EXTENSIONS : List String
  servicesDir : String

/-- A model-registry entry (model_manager.py:85-91). -/
structure Entry where
  file_name : String
  metadata : List (String × J)
  mtype : String
  full_path : String
  directory : String

/-- The filesystem and artifact-deserialization effects the manager
performs, abstracted as pure query functions: glob results, existence
checks, JSON parses and artifact loads (each load may fail, standing for a
raised exception). -/
structure FS where
  glob : String → String → List String
  pathExists : String → Bool
  readJsonObj : String → Except String (List (String × J))
  readJsonNums : String → Except String (List (String × ℚ))
  loadModelFile : String → Except String Model
  loadTransformFile : String → Except String Transform
  tensorflowAvailable : Bool

/-- Best-effort metadata lookup (model_manager.py:74-82): first existing
candidate whose parse succeeds wins; parse failures fall through to the
next candidate; nothing found degrades to empty metadata. -/
def readFirstMeta (fs : FS) : List String → List (String × J)
  | [] => []
  | p :: ps =>
    if fs.pathExists p then
      match fs.readJsonObj p with
      | .ok m => m
      | .error _ => readFirstMeta fs ps
    else readFirstMeta fs ps

/-- Best-effort scaler/preprocessor lookup (model_manager.py:152-179):
first existing, loadable candidate wins; load errors are treated as
absent. -/
def loadFirstTransform (fs : FS) : List String → Option Transform
  | [] => none
  | p :: ps =>
    if fs.pathExists p then
      match fs.loadTransformFile p with
      | .ok t => some t
      | .error _ => loadFirstTransform fs ps
    else loadFirstTransform fs ps

/-- Best-effort feature-importance lookup (model_manager.py:182-196). -/
def readFirstNums (fs : FS) : List String → List (String × ℚ)
  | [] => []
  | p :: ps =>
    if fs.pathExists p then
      match fs.readJsonNums p with
      | .ok m => m
      | .error _ => readFirstNums fs ps
    else readFirstNums fs ps

/-- `ModelManager.discover_models` (model_manager.py:39-99): scan every
configured path and extension, skip scaler/preprocessor files, key entries
by filename-without-extension (later duplicates overwrite in place, as
Python dict assignment does), attach best-effort metadata and the
name-prefix "type". -/
def discover_models (fs : FS) (cfg : Config) : List (String × Entry) :=
  (cfg.MODEL_PATH :: cfg.ADDITIONAL_MODEL_PATHS).foldl (fun acc base_path0 =>
    let base_path := if isAbs base_path0 then base_path0
      else pathJoin (pathJoin cfg.servicesDir "..") base_path0
    cfg.MODEL_FILE_EXTENSIONS.foldl (fun acc ext =>
      (fs.glob base_path ext).foldl (fun acc model_path =>
        let model_file := basename model_path
        if model_file = "scaler.joblib" || strStartsWith model_file "preprocessor"
        then acc
        else
          let model_name := splitextFst model_file
          let metadata := readFirstMeta fs
            [pathJoin base_path (model_name ++ "_metadata.json"),
             pathJoin base_path "model_metadata.json"]
          dictSet acc model_name
            { file_name := model_file
              metadata := metadata
              mtype := if containsUnderscore model_name then
                  String.mk ((splitOnChar '_' model_name.toList).headD
                    model_name.toList)
                else model_name
              full_path := model_path
              directory := base_path }) acc) acc) []

/-- The loaded artifact bundle. The source's empty-bundle literal
`{'model': None, 'scaler': None, 'feature_importances': {}}` omits the
`preprocessor`/`metadata` keys, but every reader accesses them with
`.get`, so omitted keys and `none`/empty behave identically. -/
structure Bundle where
  model : Option Model
  scaler : Option Transform
  preprocessor : Option Transform
  feature_importances : List (String × ℚ)
  metadata : List (String × J)

/-- The "no model available" bundle (model_manager.py:129 etc.). -/
def emptyBundle : Bundle :=
  { model := none, scaler := none, preprocessor := none
    feature_importances := [], metadata := [] }

/-- The body of `load_model`'s try block for a resolved registry entry
(model_manager.py:131-209): load the model object by extension (unknown
formats and a missing tensorflow degrade to the empty bundle; a raised
load error is caught by the enclosing `except`, also yielding the empty
bundle), then best-effort companions. -/
def loadResolved (fs : FS) (model_name : String) (model_info : Entry) :
    Bundle :=
  let model_path := model_info.full_path
  let model_dir := model_info.directory
  let modelE : Except String (Option Model) :=
    if strEndsWith model_path ".joblib" || strEndsWith model_path ".pkl" then
      (fs.loadModelFile model_path).map some
    else if strEndsWith model_path ".h5" || strEndsWith model_path ".keras" then
      if fs.tensorflowAvailable then (fs.loadModelFile model_path).map some
      else .ok none
    else .ok none
  match modelE with
  | .error _ => emptyBundle
  | .ok none => emptyBundle
  | .ok (some model) =>
    { model := some model
      scaler := loadFirstTransform fs
        [pathJoin model_dir "scaler.joblib",
         pathJoin model_dir (model_name ++ "_scaler.joblib")]
      preprocessor := loadFirstTransform fs
        [pathJoin model_dir "preprocessor.pkl",
         pathJoin model_dir (model_name ++ "_preprocessor.pkl")]
      feature_importances := readFirstNums fs
        [pathJoin model_dir (model_info.mtype ++ "_feature_importance.json"),
         pathJoin model_dir (model_name ++ "_feature_importance.json"),
         pathJoin model_dir "feature_importance.json"]
      metadata := model_info.metadata }

/-- The manager's mutable state: the registry (an insertion-ordered dict)
and the configured default model name. -/
structure Manager where
  models : List (String × Entry)
  default_model_name : String

/-- `ModelManager.load_model` (model_manager.py:101-209): resolve the name
(default when absent, stripping an extension only in that case), re-run
discovery if unknown, fall back to the first registry entry when still
unknown, return the empty bundle when the registry is empty, then load the
resolved entry. Total: every internal exception is caught. -/
def load_model (fs : FS) (cfg : Config) (mgr : Manager)
    (name? : Option String) : Manager × Bundle :=
  let model_name := match name? with
    | none =>
      let n := mgr.default_model_name
      if containsDot n then splitextFst n else n
    | some n => n
  let mgr1 :=
    if (dictFind mgr.models model_name).isNone then
      { mgr with models := discover_models fs cfg }
    else mgr
  let model_name1 :=
    if (dictFind mgr1.models model_name).isNone then
      match mgr1.models with
      | (k, _) :: _ => k
      | [] => model_name
    else model_name
  if mgr1.models.isEmpty then
    (mgr1, emptyBundle)
  else
    match dictFind mgr1.models model_name1 with
    | none => (mgr1, emptyBundle)
    | some model_info => (mgr1, loadResolved fs model_name1 model_info)

/-- `ModelManager.get_available_models` (model_manager.py:211-215). -/
def get_available_models (mgr : Manager) : List String :=
  mgr.models.map Prod.fst

/-- `ModelManager.get_model_info` (model_manager.py:217-230): unlike
`load_model`, it strips an extension from every name (not only the
default), then reads the registry (`none` models the `{}` result). -/
def get_model_info (mgr : Manager) (name? : Option String) : Option Entry :=
  let model_name := name?.getD mgr.default_model_name
  let model_name1 :=
    if containsDot model_name then splitextFst model_name else model_name
  dictFind mgr.models model_name1

/-- Concrete configuration fixture (the values of `core/config.py`). -/
def cfgW : Config :=
  { DEFAULT_MODEL := "rf_model.joblib"
    MODEL_PATH := "static/models"
    ADDITIONAL_MODEL_PATHS := []
    MODEL_FILE_EXTENSIONS := [".joblib", ".pkl", ".h5", ".keras"]
    servicesDir := "/app/backend/services" }

/-- Concrete registry entry fixture for a dot-free model name. -/
def entW : Entry :=
  { file_name := "rf_model.joblib", metadata := [], mtype := "rf"
    full_path := "/models/rf_model.joblib", directory := "/models" }

/-- Concrete manager fixture holding `entW`. -/
def mgrW : Manager :=
  { models := [("rf_model", entW)], default_model_name := "rf_model.joblib" }

/-- Concrete filesystem fixture: only `/models/rf_model.joblib` loads. -/
def fsW : FS :=
  { glob := fun _ _ => []
    pathExists := fun _ => false
    readJsonObj := fun _ => .error "missing"
    readJsonNums := fun _ => .error "missing"
    loadModelFile := fun p =>
      if p = "/models/rf_model.joblib" then .ok { predict := fun _ => .ok [1] }
      else .error "not found"
    loadTransformFile := fun _ => .error "missing"
    tensorflowAvailable := false }

/-- The entry the discovery scan builds for a lone
`rf_model.joblib` under the default (relative) search path. -/
def entV : Entry :=
  { file_name := "rf_model.joblib", metadata := [], mtype := "rf"
    full_path := "/app/backend/services/../static/models/rf_model.joblib"
    directory := "/app/backend/services/../static/models" }

/-- Filesystem fixture whose glob exposes exactly `entV`'s file. -/
def fsV : FS :=
  { fsW with glob := fun d ext =>
      if d = "/app/backend/services/../static/models" ∧ ext = ".joblib"
      then ["/app/backend/services/../static/models/rf_model.joblib"]
      else [] }

/-- Registry entry fixture whose logical name keeps a dot
(discovered from a file named `model.v2.joblib`). -/
def entC9 : Entry :=
  { file_name := "model.v2.joblib", metadata := [], mtype := "model.v2"
    full_path := "/models/model.v2.joblib", directory := "/models" }

/-- Manager fixture whose only registry key contains a dot. -/
def mgrC9 : Manager :=
  { models := [("model.v2", entC9)], default_model_name := "rf_model.joblib" }

/-- Filesystem fixture: only `/models/model.v2.joblib` loads. -/
def fsC9 : FS :=
  { glob := fun _ _ => []
    pathExists := fun _ => false
    readJsonObj := fun _ => .error "missing"
    readJsonNums := fun _ => .error "missing"
    loadModelFile := fun p =>
      if p = "/models/model.v2.joblib" then .ok { predict := fun _ => .ok [1] }
      else .error "not found"
    loadTransformFile := fun _ => .error "missing"
    tensorflowAvailable := false }

/-- Python truthiness of an optional record: `None` and the empty dict are
falsy (`if ios_data and android_data` tests truthiness, not presence). -/
def recTruthy : Option AppRecord → Bool
  | none => false
  | some r => !r.isEmpty

/-- `sum(1 for v in data.values() if v is None)`
(prediction_model.py:125-126): number of null-valued fields. -/
def countNulls (r : AppRecord) : ℕ :=
  (r.filter (fun p => p.2.isNone)).length

/-- Platform selection of `predict_app_longevity`
(prediction_model.py:119-143): with both records available the one with
fewer nulls wins and ties go to iOS; with one available it wins; with none
the pair stays empty. Returns the chosen record and the platform tag. -/
def selectAppData (ios_data android_data : Option AppRecord) :
    Option AppRecord × Option String :=
  if recTruthy ios_data && recTruthy android_data then
    let i := ios_data.getD []
    let a := android_data.getD []
    if countNulls i ≤ countNulls a then (some i, some "iOS")
    else (some a, some "Android")
  else if recTruthy ios_data then (ios_data, some "iOS")
  else if recTruthy android_data then (android_data, some "Android")
  else (none, none)

/-- Render a scalar value as text (`str(value)` in f-strings). The exact
digit formatting of Python floats is presentational; rationals are
rendered in Lean's normal form, which no claim inspects. -/
def showValue : Value → String
  | .num q => toString q
  | .str s => s
  | .bool b => if b then "True" else "False"

/-- Render `value * 100` for the sentiment description (the `:.1f`
formatting is presentational; strings never reach this, they raise in
`get_feature_description` first). -/
def showPercent : Value → String
  | .num q => toString (q * 100)
  | .bool b => if b then "100.0" else "0.0"
  | .str _ => ""

/-- The per-feature canned description table of `_get_feature_description`
(prediction_model.py:480-495), with the `"{feature}: {value}"` fallback. -/
def descTable (feature : String) (value : Value) : String :=
  let vs := showValue value
  match feature with
  | "rating" => "App rating of " ++ vs ++ "/5"
  | "days_since_last_update" => "Last updated " ++ vs ++ " days ago"
  | "days_since_release" =>
    if value.truthy then "Released " ++ vs ++ " days ago"
    else "Release date unknown"
  | "downloads" => "Approximately " ++ vs ++ " downloads"
  | "size_mb" => "App size of " ++ vs ++ " MB"
  | "number_of_reviews" => vs ++ " user reviews"
  | "positive_sentiment_ratio" =>
    if value.truthy then showPercent value ++ "% positive sentiment in reviews"
    else "Sentiment unknown"
  | "update_frequency" =>
    if value.truthy then "Updated every " ++ vs ++ " days on average"
    else "Update frequency unknown"
  | "has_in_app_purchases" =>
    if value.truthy then "Offers in-app purchases" else "No in-app purchases"
  | "price" => if value.truthy then "Priced at $" ++ vs else "Free app"
  | "content_rating" => "Content rated for " ++ vs
  | "total_ratings" => vs ++ " total ratings"
  | _ => feature ++ ": " ++ vs

/-- `_get_feature_description` (prediction_model.py:478-495). Python builds
the whole description dict eagerly, so the sentiment entry's float
formatting of `value*100` runs for every feature; on a truthy string value
(string-repetition then `:.1f`) it raises `ValueError`, independent of
which feature is looked up. -/
def get_feature_description (feature : String) (value : Value) :
    Except String String :=
  match value with
  | .str s =>
    if s = "" then .ok (descTable feature value)
    else .error "ValueError: Unknown format code f for object of type str"
  | _ => .ok (descTable feature value)

/-- One contributing-factor entry (prediction_model.py:262-268). -/
structure Factor where
  feature : String
  value : Value
  importance : ℚ
  impact : String
  description : String
deriving DecidableEq, Repr

/-- Sort key used for contributing factors
(`self.feature_importances.get(x[0], 0)`, prediction_model.py:256). -/
def fiKey (feature_importances : List (String × ℚ)) (p : String × Value) : ℚ :=
  (dictFind feature_importances p.1).getD 0

/-- Stable descending insertion: place `x` before the first element whose
key does not exceed `x`'s (earlier-listed elements keep their place on
ties, as Python's stable `sorted(..., reverse=True)` does). -/
def insertDesc {α : Type} (key : α → ℚ) (x : α) : List α → List α
  | [] => [x]
  | y :: ys => if key y ≤ key x then x :: y :: ys else y :: insertDesc key x ys

/-- Stable descending sort by a rational key, the behavior of
`sorted(..., key=..., reverse=True)`. -/
def sortDesc {α : Type} (key : α → ℚ) (l : List α) : List α :=
  l.foldr (insertDesc key) []

/-- Fail-fast effectful map (the source's for-loop appending one entry at a
time, aborting on the first raised exception). -/
def mapE {α β : Type} (f : α → Except String β) :
    List α → Except String (List β)
  | [] => .ok []
  | x :: xs =>
    match f x with
    | .error e => .error e
    | .ok y =>
      match mapE f xs with
      | .error e => .error e
      | .ok ys => .ok (y :: ys)

/-- The dict comprehension of prediction_model.py:251-252: record fields
that are non-null and appear among the feature importances, in record
order. -/
def availableFeatures (feature_importances : List (String × ℚ))
    (app_data : AppRecord) : List (String × Value) :=
  app_data.filterMap (fun p =>
    match p.2 with
    | some v =>
      if dictHasKey feature_importances p.1 then some (p.1, v) else none
    | none => none)

/-- Build one factor dict (prediction_model.py:260-268): direct indexing
into the importances (always present after the filter), sign-based impact
tag, canned description. -/
def mkFactor (feature_importances : List (String × ℚ)) (p : String × Value) :
    Except String Factor :=
  match dictFind feature_importances p.1 with
  | none => .error "KeyError: feature importance missing"
  | some imp =>
    match get_feature_description p.1 p.2 with
    | .error e => .error e
    | .ok d => .ok
        { feature := p.1, value := p.2, importance := imp
          impact := if imp > 0 then "positive" else "negative"
          description := d }

/-- Contributing-factors computation of `predict_app_longevity`
(prediction_model.py:246-270): filter to non-null fields with known
importance, sort by signed importance descending (stable), truncate to 5,
build factor entries. -/
def contributingFactors (feature_importances : List (String × ℚ))
    (app_data : AppRecord) : Except String (List Factor) :=
  mapE (mkFactor feature_importances)
    ((sortDesc (fiKey feature_importances)
      (availableFeatures feature_importances app_data)).take 5)

/-- Python `max(iterable, key=...)`: raises on an empty sequence, keeps the
first maximal element otherwise (later elements win only when strictly
greater). -/
def pyMax {α : Type} (key : α → ℚ) : List α → Except String α
  | [] => .error "ValueError: max arg is an empty sequence"
  | x :: xs => .ok (xs.foldl (fun acc y => if key y > key acc then y else acc) x)

/-- `similarity` of prediction_model.py:295-296: SequenceMatcher ratio on
lowercased strings. The ratio itself is an opaque library call, passed in
as a parameter. -/
def similarity (ratio : String → String → ℚ) (a b : String) : ℚ :=
  ratio (strLower a) (strLower b)

/-- One iTunes search result, with exactly the fields the adapter reads.
`none` stands for an absent key (and for `averageUserRating` etc. also for
an explicit null — `dict.get` makes the two indistinguishable here, except
for `trackId`, which is read with `[...]` and whose absence raises. -/
structure ITunesApp where
  trackName : Option String
  trackId : Option ℤ
  averageUserRating : Option ℚ
  userRatingCount : Option ℚ
  price : Option ℚ
  fileSizeBytes : Option ℚ
  primaryGenreName : Option String
  artistName : Option String
  description : Option String
  releaseDate : Option String
  currentVersionReleaseDate : Option String

/-- The outcome of the iTunes search request: a raised network/JSON error,
or a parsed body with `resultCount` and `results`. -/
inductive ITunesResponse where
  | fail (msg : String)
  | ok (resultCount : ℤ) (results : List ITunesApp)

/-- Everything the iOS adapter consumes from the outside world. -/
structure IosEnv where
  ratio : String → String → ℚ
  daysSinceIso : String → Except String ℤ
  response : ITunesResponse

/-- The feature-engineering line shared by both adapters
(prediction_model.py:329 and 423):
`0.5 + 0.1 * min(5, data.get("rating", 2.5) - 2.5)`. The `rating` key is
always present at this point, so a null rating reaches the subtraction and
raises `TypeError`. -/
def sentimentStep (app_data : AppRecord) : Except String AppRecord :=
  match recGet app_data "rating" (some (.num 2.5)) with
  | none => .error "TypeError: unsupported operand type for NoneType and float"
  | some v =>
    match v.toNum with
    | none => .error "TypeError: unsupported operand type for str and float"
    | some r => .ok (dictSet app_data "positive_sentiment_ratio"
        (some (.num (0.5 + 0.1 * min 5 (r - 2.5)))))

/-- The record the iOS adapter builds from the best match
(prediction_model.py:306-316). -/
def iosRecord (best : ITunesApp) (tid : ℤ) : AppRecord :=
  [("app_id", some (.str (toString tid))),
   ("app_name", best.trackName.map Value.str),
   ("rating", best.averageUserRating.map Value.num),
   ("total_ratings", best.userRatingCount.map Value.num),
   ("price", best.price.map Value.num),
   ("size_mb", some (.num ((best.fileSizeBytes.getD 0) / 1000000))),
   ("category", best.primaryGenreName.map Value.str),
   ("developer", best.artistName.map Value.str),
   ("has_in_app_purchases",
     some (.bool (strContains (strLower (best.description.getD ""))
       "offers in-app purchases")))]

/-- `days_since_release` (prediction_model.py:318-321): set only when the
release date is present; parsing may raise. -/
def iosDate1 (daysSinceIso : String → Except String ℤ) (best : ITunesApp)
    (app_data : AppRecord) : Except String AppRecord :=
  match best.releaseDate with
  | none => .ok app_data
  | some s =>
    match daysSinceIso s with
    | .error e => .error e
    | .ok d => .ok (dictSet app_data "days_since_release"
        (some (.num (d : ℚ))))

/-- `days_since_last_update` (prediction_model.py:323-326). -/
def iosDate2 (daysSinceIso : String → Except String ℤ) (best : ITunesApp)
    (app_data : AppRecord) : Except String AppRecord :=
  match best.currentVersionReleaseDate with
  | none => .ok app_data
  | some s =>
    match daysSinceIso s with
    | .error e => .error e
    | .ok d => .ok (dictSet app_data "days_since_last_update"
        (some (.num (d : ℚ))))

/-- The two conditional date-derived fields in sequence
(prediction_model.py:318-326). -/
def iosDates (daysSinceIso : String → Except String ℤ) (best : ITunesApp)
    (app_data : AppRecord) : Except String AppRecord :=
  match iosDate1 daysSinceIso best app_data with
  | .error e => .error e
  | .ok app_data1 => iosDate2 daysSinceIso best app_data1

/-- `_fetch_app_store_data` before its blanket handler
(prediction_model.py:283-334): a raised step surfaces as `.error`. -/
def fetch_app_store_body (env : IosEnv) (app_name : String) :
    Except String (Option AppRecord) :=
  match env.response with
  | .fail msg => .error msg
  | .ok resultCount results =>
    if resultCount > 0 then
      match pyMax (fun x => similarity env.ratio (x.trackName.getD "") app_name)
          results with
      | .error e => .error e
      | .ok best =>
        match best.trackId with
        | none => .error "KeyError: trackId"
        | some tid =>
          match iosDates env.daysSinceIso best (iosRecord best tid) with
          | .error e => .error e
          | .ok app_data1 =>
            match sentimentStep app_data1 with
            | .error e => .error e
            | .ok app_data2 => .ok (some app_data2)
    else
      .ok none

/-- `_fetch_app_store_data` (prediction_model.py:283-337): the blanket
`except` converts any raised step into `None`. -/
def fetch_app_store_data (env : IosEnv) (app_name : String) :
    Option AppRecord :=
  match fetch_app_store_body env app_name with
  | .ok r => r
  | .error _ => none

/-- `[\d.]` character class. -/
def isDigitDot (c : Char) : Bool := c.isDigit || c = '.'

/-- Leftmost match of `id=([^&]+)` (prediction_model.py:364): the group is
the non-empty run after `id=` up to `&`; an empty group makes the engine
resume at the next position. -/
def searchIdGroup : List Char → Option (List Char)
  | [] => none
  | x :: xs =>
    if ("id=".toList).isPrefixOf (x :: xs) then
      let grp := ((x :: xs).drop 3).takeWhile (fun c => c ≠ '&')
      if grp.isEmpty then searchIdGroup xs else some grp
    else searchIdGroup xs

/-- Leftmost match of `([\d.]+) out of` (prediction_model.py:404): a
maximal digit-dot run followed literally by " out of". -/
def searchRatingGroup : List Char → Option (List Char)
  | [] => none
  | x :: xs =>
    let run := (x :: xs).takeWhile isDigitDot
    if !run.isEmpty &&
        (" out of".toList).isPrefixOf ((x :: xs).drop run.length) then
      some run
    else searchRatingGroup xs

/-- Leftmost match of `([\d.]+)\s*(mb|gb)` on lowercased text
(prediction_model.py:415); returns the digit group and whether the unit
was gb. -/
def searchSizeGroup : List Char → Option (List Char × Bool)
  | [] => none
  | x :: xs =>
    let run := (x :: xs).takeWhile isDigitDot
    if !run.isEmpty then
      let rest := ((x :: xs).drop run.length).dropWhile Char.isWhitespace
      if ("mb".toList).isPrefixOf rest then some (run, false)
      else if ("gb".toList).isPrefixOf rest then some (run, true)
      else searchSizeGroup xs
    else searchSizeGroup xs

/-- Digit run to a natural number. -/
def digitsToNat (cs : List Char) : ℕ :=
  cs.foldl (fun n c => n * 10 + (c.toNat - 48)) 0

/-- Python `float(s)` for strings matched by `[\d.]+`: valid with at most
one dot and at least one digit; `"..."`-like matches raise `ValueError`. -/
def pyFloat (cs : List Char) : Except String ℚ :=
  if (cs.filter (fun c => c = '.')).length ≤ 1 ∧
      !(cs.filter Char.isDigit).isEmpty ∧ cs.all isDigitDot then
    let intPart := cs.takeWhile (fun c => c ≠ '.')
    let fracPart := (cs.dropWhile (fun c => c ≠ '.')).drop 1
    .ok ((digitsToNat intPart : ℚ) +
      (digitsToNat fracPart : ℚ) / (10 ^ fracPart.length : ℕ))
  else .error "ValueError: could not convert string to float"

/-- What the Play-Store scrape exposes to the adapter: the `h1` title, the
rating element's aria-label (when the element exists), and the info-box
texts. -/
structure PlaySoup where
  title : Option String
  ratingAria : Option String
  infoTexts : List String

/-- The two Play-Store HTTP round-trips, each either raising or returning
a status code plus parsed content (for the search: the app-link hrefs). -/
structure PlayEnv where
  searchResult : Except String (ℤ × List String)
  detailsResult : Except String (ℤ × PlaySoup)

/-- The default Android record template (prediction_model.py:383-393). -/
def playTemplate (package_id app_name : String) : AppRecord :=
  [("app_id", some (.str package_id)),
   ("app_name", some (.str app_name)),
   ("category", some (.str "Unknown")),
   ("developer", some (.str "Unknown")),
   ("has_in_app_purchases", some (.bool false)),
   ("rating", none),
   ("total_ratings", none),
   ("price", some (.num 0)),
   ("size_mb", none)]

/-- Title extraction (prediction_model.py:396-398). -/
def titleStep (title : Option String) (app_data : AppRecord) : AppRecord :=
  match title with
  | some t => dictSet app_data "app_name" (some (.str (strStrip t)))
  | none => app_data

/-- Rating extraction (prediction_model.py:401-406): sets `rating` only
when the element exists and the regex matches; `float` may raise. -/
def ratingStep (ratingAria : Option String) (app_data : AppRecord) :
    Except String AppRecord :=
  match ratingAria with
  | none => .ok app_data
  | some aria =>
    match searchRatingGroup aria.toList with
    | none => .ok app_data
    | some grp =>
      match pyFloat grp with
      | .error e => .error e
      | .ok r => .ok (dictSet app_data "rating" (some (.num r)))

/-- The info-element loop (prediction_model.py:409-420): in-app-purchase
flag and size extraction; `float` on a matched size group may raise. -/
def infoLoop (app_data : AppRecord) : List String → Except String AppRecord
  | [] => .ok app_data
  | elemText :: rest =>
    let text := strLower elemText
    if strContains text "in-app purchases" then
      infoLoop (dictSet app_data "has_in_app_purchases" (some (.bool true))) rest
    else if strContains text "mb" || strContains text "gb" then
      match searchSizeGroup text.toList with
      | none => infoLoop app_data rest
      | some (grp, isGb) =>
        match pyFloat grp with
        | .error e => .error e
        | .ok size0 =>
          let size := if isGb then size0 * 1000 else size0
          infoLoop (dictSet app_data "size_mb" (some (.num size))) rest
    else infoLoop app_data rest

/-- The rating-based update/release-day defaults
(prediction_model.py:427-433), applied only when `rating` is non-null. -/
def playDays (app_data : AppRecord) : Except String AppRecord :=
  match recGet app_data "rating" none with
  | none => .ok app_data
  | some v =>
    match pyGt v 4 with
    | .error e => .error e
    | .ok b =>
      let d1 := dictSet app_data "days_since_last_update"
        (some (.num (if b then 30 else 90)))
      .ok (dictSet d1 "days_since_release" (some (.num 365)))

/-- `_fetch_play_store_data` before its blanket handler
(prediction_model.py:339-435): non-200 statuses, missing links and an
unextractable package id return `None` normally; raised steps surface as
`.error`. -/
def fetch_play_store_body (env : PlayEnv) (app_name : String) :
    Except String (Option AppRecord) :=
  match env.searchResult with
  | .error e => .error e
  | .ok (status, app_links) =>
    if status ≠ 200 then .ok none
    else
      match app_links with
      | [] => .ok none
      | href :: _ =>
        match searchIdGroup href.toList with
        | none => .ok none
        | some grp =>
          let package_id := String.mk grp
          match env.detailsResult with
          | .error e => .error e
          | .ok (status2, soup) =>
            if status2 ≠ 200 then .ok none
            else
              match ratingStep soup.ratingAria
                  (titleStep soup.title (playTemplate package_id app_name)) with
              | .error e => .error e
              | .ok app_data1 =>
                match infoLoop app_data1 soup.infoTexts with
                | .error e => .error e
                | .ok app_data2 =>
                  match sentimentStep app_data2 with
                  | .error e => .error e
                  | .ok app_data3 =>
                    match playDays app_data3 with
                    | .error e => .error e
                    | .ok app_data4 => .ok (some app_data4)

/-- `_fetch_play_store_data` (prediction_model.py:339-438): the blanket
`except` converts any raised step into `None`. -/
def fetch_play_store_data (env : PlayEnv) (app_name : String) :
    Option AppRecord :=
  match fetch_play_store_body env app_name with
  | .ok r => r
  | .error _ => none

/-- The predictor-service state (`AppLongevityPredictorService` fields,
prediction_model.py:38-45). -/
structure Service where
  model : Option Model
  scaler : Option Transform
  preprocessor : Option Transform
  feature_importances : List (String × ℚ)
  model_name : String
  metadata : List (String × J)

/-- `AppLongevityPredictorService.load_model` (prediction_model.py:47-78):
resolve the name, delegate to the manager (which never raises), install
the bundle fields, report success as a Bool; on success a trailing
extension is stripped from the stored model name. The `except` is dead in
this embedding because every callee is total. -/
def service_load_model (fs : FS) (cfg : Config) (mgr : Manager)
    (svc : Service) (name? : Option String) : Manager × Service × Bool :=
  let model_name := name?.getD cfg.DEFAULT_MODEL
  let svc0 := { svc with model_name := model_name }
  let (mgr1, bundle) := load_model fs cfg mgr (some model_name)
  let svc1 := { svc0 with
    model := bundle.model
    scaler := bundle.scaler
    preprocessor := bundle.preprocessor
    feature_importances := bundle.feature_importances
    metadata := bundle.metadata }
  match bundle.model with
  | none => (mgr1, svc1, false)
  | some _ =>
    let finalName :=
      if containsDot model_name then splitextFst model_name else model_name
    (mgr1, { svc1 with model_name := finalName }, true)

/-- Everything `predict_app_longevity` consumes from outside: the artifact
filesystem and config (for late model loading), the two adapter
environments, and the formatted current date. -/
structure PredictEnv where
  fs : FS
  cfg : Config
  ios : IosEnv
  play : PlayEnv
  today : String

/-- The `{app_name, error}` failure dict every failure path of
`predict_app_longevity` returns. -/
def errResult (app_name msg : String) : List (String × J) :=
  [("app_name", .str app_name), ("error", .str msg)]

/-- The model-resolution section of `predict_app_longevity`
(prediction_model.py:92-112): if no model is loaded, try the default, then
the first available alternative; both failing (or none available) yields
the early `{app_name, error: "No prediction model available"}` result
(`some` in the third component). Every callee is total, so this section
raises nothing. -/
def loadSection (env : PredictEnv) (mgr : Manager) (svc : Service)
    (app_name : String) : Manager × Service × Option (List (String × J)) :=
  match svc.model with
  | some _ => (mgr, svc, none)
  | none =>
    let (mgr1, svc1, ok1) := service_load_model env.fs env.cfg mgr svc none
    if ok1 then (mgr1, svc1, none)
    else
      match get_available_models mgr1 with
      | [] => (mgr1, svc1, some (errResult app_name "No prediction model available"))
      | alt :: _ =>
        let (mgr2, svc2, ok2) := service_load_model env.fs env.cfg mgr1 svc1 (some alt)
        if ok2 then (mgr2, svc2, none)
        else (mgr2, svc2, some (errResult app_name "No prediction model available"))

/-- Columns dropped before inference (prediction_model.py:155). -/
def excludeCols : List String := ["app_name", "app_id", "keywords", "reviews"]

/-- `df.drop(columns=...)` on the one-row frame. -/
def dropCols (r : AppRecord) (cols : List String) : AppRecord :=
  r.filter (fun p => !cols.contains p.1)

/-- `df.fillna(0)`. -/
def fillnaZero (r : AppRecord) : Row :=
  r.map (fun p => (p.1, p.2.getD (.num 0)))

/-- Add missing expected columns as 0 and reorder/select to the expected
list (prediction_model.py:174-178 / 202-206). -/
def alignCols (df : Row) (cols : List String) : Row :=
  cols.map (fun c => (c, (dictFind df c).getD (.num 0)))

/-- The preprocessor block (prediction_model.py:163-189): align to the
introspected columns when available, apply `transform`; a raised transform
is caught and leaves `none` (falling through to the scaler), with the
frame keeping any realignment done before the raise. -/
def preprocessBlock (p? : Option Transform) (df : Row) : Row × Option Row :=
  match p? with
  | none => (df, none)
  | some p =>
    match p.expectedCols with
    | some cols =>
      let df2 := alignCols df cols
      match p.transform df2 with
      | .ok r => (df2, some r)
      | .error _ => (df2, none)
    | none =>
      match p.transform df with
      | .ok r => (df, some r)
      | .error _ => (df, none)

/-- The scaler fallback (prediction_model.py:191-217): same alignment; a
raised transform degrades to the (aligned) unscaled frame; no scaler at
all keeps the frame as-is. -/
def scalerOrRaw (s? : Option Transform) (df : Row) : Row :=
  match s? with
  | none => df
  | some s =>
    match s.expectedCols with
    | some cols =>
      let df2 := alignCols df cols
      match s.transform df2 with
      | .ok r => r
      | .error _ => df2
    | none =>
      match s.transform df with
      | .ok r => r
      | .error _ => df

/-- The `key_metrics` sub-dict (prediction_model.py:230-240): `.get` with
"Unknown"/False defaults. -/
def keyMetricsJ (app_data : AppRecord) : List (String × J) :=
  [("rating", optValJ (recGet app_data "rating" (some (.str "Unknown")))),
   ("downloads", optValJ (recGet app_data "downloads" (some (.str "Unknown")))),
   ("price", optValJ (recGet app_data "price" (some (.str "Unknown")))),
   ("size_mb", optValJ (recGet app_data "size_mb" (some (.str "Unknown")))),
   ("days_since_last_update",
     optValJ (recGet app_data "days_since_last_update" (some (.str "Unknown")))),
   ("days_since_release",
     optValJ (recGet app_data "days_since_release" (some (.str "Unknown")))),
   ("positive_sentiment_ratio",
     optValJ (recGet app_data "positive_sentiment_ratio" (some (.str "Unknown")))),
   ("in_app_purchases",
     optValJ (recGet app_data "has_in_app_purchases" (some (.bool false)))),
   ("total_ratings",
     optValJ (recGet app_data "total_ratings" (some (.str "Unknown"))))]

/-- The interpretation dict as a result value. -/
def interpJ (i : Interp) : J :=
  .obj [("category", .str i.category), ("description", .str i.description),
        ("expected_lifespan", .str i.expected_lifespan),
        ("success_probability", .str i.success_probability)]

/-- One contributing-factor dict as a result value. -/
def factorJ (f : Factor) : J :=
  .obj [("feature", .str f.feature), ("value", optValJ (some f.value)),
        ("importance", .num f.importance), ("impact", .str f.impact),
        ("description", .str f.description)]

/-- One recommendation dict as a result value. -/
def recJ (r : Recommendation) : J :=
  .obj [("area", .str r.area), ("issue", .str r.issue),
        ("recommendation", .str r.recommendation)]

/-- The scoring section of `predict_app_longevity`
(prediction_model.py:114-275): fetch both adapters, select a platform,
reconcile features, predict, and assemble the result dict; `.error`
stands for a raised exception reaching the orchestrator's catch-all. -/
def scoreSection (env : PredictEnv) (svc : Service) (app_name : String) :
    Except String (List (String × J)) :=
  let ios_data := fetch_app_store_data env.ios app_name
  let android_data := fetch_play_store_data env.play app_name
  match selectAppData ios_data android_data with
  | (none, _) =>
    .ok (errResult app_name
      "Could not find sufficient data for this app on either platform")
  | (some app_data, platformO) =>
    let app_store_id := recGet app_data "app_id" none
    let app_df := fillnaZero (dropCols app_data excludeCols)
    let (app_df1, processedO) := preprocessBlock svc.preprocessor app_df
    let app_df_processed :=
      match processedO with
      | some r => r
      | none => scalerOrRaw svc.scaler app_df1
    match svc.model with
    | none => .error "AttributeError: NoneType object has no attribute predict"
    | some m =>
      match m.predict app_df_processed with
      | .error e => .error e
      | .ok prediction =>
        match prediction with
        | [] => .error "IndexError: index 0 is out of bounds"
        | predicted_value :: _ =>
          let results : List (String × J) :=
            [("app_name", .str app_name),
             ("platform",
               match platformO with | some p => .str p | none => .null),
             ("store_id", optValJ app_store_id),
             ("predicted_longevity", .num predicted_value),
             ("longevity_interpretation",
               interpJ (interpret_longevity_score predicted_value)),
             ("key_metrics", .obj (keyMetricsJ app_data)),
             ("date_analyzed", .str env.today),
             ("model_used", .str svc.model_name)]
          let withCF : Except String (List (String × J)) :=
            if svc.feature_importances.isEmpty then .ok results
            else
              match contributingFactors svc.feature_importances app_data with
              | .error e => .error e
              | .ok cf => .ok (dictSet results "contributing_factors"
                  (.arr (cf.map factorJ)))
          match withCF with
          | .error e => .error e
          | .ok results1 =>
            match generate_recommendations app_data with
            | .error e => .error e
            | .ok recs => .ok (dictSet results1 "recommendations"
                (.arr (recs.map recJ)))

/-- `predict_app_longevity` (prediction_model.py:80-281). The whole body
sits in one `try`; in this embedding the model-resolution section is
total (each callee catches internally), so the catch-all is equivalently
wrapped around the scoring section only: a raised step becomes the
`{app_name, error: "Error analyzing app: <msg>"}` result. The
`compare_competitors` flag is accepted and unused, as in the source. -/
def predict_app_longevity (env : PredictEnv) (mgr : Manager) (svc : Service)
    (app_name : String) (compare_competitors : Bool) :
    Manager × Service × List (String × J) :=
  let (mgr1, svc1, earlyErr) := loadSection env mgr svc app_name
  match earlyErr with
  | some res => (mgr1, svc1, res)
  | none =>
    match scoreSection env svc1 app_name with
    | .ok res => (mgr1, svc1, res)
    | .error e => (mgr1, svc1, errResult app_name ("Error analyzing app: " ++ e))

/-- A model that always raises on predict. -/
def modelBoom : Model := { predict := fun _ => .error "boom" }

/-- A model that always scores 1. -/
def modelOne : Model := { predict := fun _ => .ok [1] }

/-- A service with a loaded model and no companions. -/
def svcLoaded (m : Model) : Service :=
  { model := some m, scaler := none, preprocessor := none
    feature_importances := [], model_name := "rf_model", metadata := [] }

/-- iTunes result fixture with every extractable field present and an
integer rating. -/
def iosAppA : ITunesApp :=
  { trackName := some "TestApp", trackId := some 123
    averageUserRating := some 4, userRatingCount := some 100
    price := some 0, fileSizeBytes := some 50000000
    primaryGenreName := some "Games", artistName := some "Dev"
    description := some "", releaseDate := none
    currentVersionReleaseDate := none }

/-- iOS environment fixture that finds `iosAppA`. -/
def iosEnvOkA : IosEnv :=
  { ratio := fun _ _ => 0, daysSinceIso := fun _ => .ok 10
    response := .ok 1 [iosAppA] }

/-- iOS environment fixture with an empty search result. -/
def iosEnvNone : IosEnv :=
  { ratio := fun _ _ => 0, daysSinceIso := fun _ => .ok 10
    response := .ok 0 [] }

/-- Play environment fixture whose search request got a 404. -/
def playEnvNone : PlayEnv :=
  { searchResult := .ok (404, []), detailsResult := .error "unreachable" }

/-- iTunes result fixture: a candidate is found but its rating is null. -/
def iosAppNullRating : ITunesApp :=
  { trackName := some "X", trackId := some 7
    averageUserRating := none, userRatingCount := none
    price := none, fileSizeBytes := none
    primaryGenreName := none, artistName := none
    description := none, releaseDate := none
    currentVersionReleaseDate := none }

/-- iOS environment fixture delivering `iosAppNullRating`. -/
def iosEnvNullRating : IosEnv :=
  { ratio := fun _ _ => 0, daysSinceIso := fun _ => .ok 0
    response := .ok 1 [iosAppNullRating] }

/-- Play soup fixture: app page found but no rating element. -/
def playSoupNullRating : PlaySoup :=
  { title := none, ratingAria := none, infoTexts := [] }

/-- Play environment fixture: search and details succeed, rating absent. -/
def playEnvNullRating : PlayEnv :=
  { searchResult := .ok (200, ["/store/apps/details?id=com.example.app"])
    detailsResult := .ok (200, playSoupNullRating) }

/-- Environment fixture where neither adapter yields a record. -/
def envNoData : PredictEnv :=
  { fs := fsW, cfg := cfgW, ios := iosEnvNone, play := playEnvNone
    today := "2026-10-12" }

/-- Environment fixture where the iOS adapter succeeds and the model's
predict raises. -/
def envBoom : PredictEnv :=
  { fs := fsW, cfg := cfgW, ios := iosEnvOkA, play := playEnvNone
    today := "2026-10-12" }

/-- Helper for C2: the rank of the bucket chosen for a score, written as the
nested conditional the source's `if/elif` chain induces. -/
theorem categoryRank_interpret (s : ℚ) :
    categoryRank (interpret_longevity_score s).category =
      if s ≥ 0.8 then 4 else if s ≥ 0.6 then 3 else if s ≥ 0.4 then 2
      else if s ≥ 0.2 then 1 else 0 := by
  unfold interpret_longevity_score categoryRank
  split_ifs <;> rfl

/-- C2: `_interpret_longevity_score` is total (a Lean function on all of ℚ,
so every score, including out-of-range ones, lands in a bucket without
raising) and the guards of the `if/elif` chain partition the score line, so
exactly one bucket applies: score ≥ 0.8 ↦ "Excellent"/"5+ years",
0.6 ≤ score < 0.8 ↦ "Good", 0.4 ≤ score < 0.6 ↦ "Average",
0.2 ≤ score < 0.4 ↦ "Below Average", score < 0.2 ↦ "Poor"; bucketing is
monotone in the score, and concretely 0.8 ↦ "Excellent", 0.79999 ↦ "Good",
-0.1 ↦ "Poor", 1.5 ↦ "Excellent". -/
theorem c2_interpret_total_monotone (s : ℚ) :
    ((0.8 : ℚ) ≤ s → (interpret_longevity_score s).category = "Excellent" ∧
        (interpret_longevity_score s).expected_lifespan = "5+ years")
    ∧ ((0.6 : ℚ) ≤ s → s < 0.8 → (interpret_longevity_score s).category = "Good")
    ∧ ((0.4 : ℚ) ≤ s → s < 0.6 → (interpret_longevity_score s).category = "Average")
    ∧ ((0.2 : ℚ) ≤ s → s < 0.4 →
        (interpret_longevity_score s).category = "Below Average")
    ∧ (s < 0.2 → (interpret_longevity_score s).category = "Poor")
    ∧ (∀ t : ℚ, s ≤ t →
        categoryRank (interpret_longevity_score s).category ≤
          categoryRank (interpret_longevity_score t).category)
    ∧ (interpret_longevity_score 0.8).category = "Excellent"
    ∧ (interpret_longevity_score 0.79999).category = "Good"
    ∧ (interpret_longevity_score (-0.1)).category = "Poor"
    ∧ (interpret_longevity_score 1.5).category = "Excellent" := by
  refine ⟨?_, ?_, ?_, ?_, ?_, ?_, by norm_num [interpret_longevity_score],
    by norm_num [interpret_longevity_score], by norm_num [interpret_longevity_score],
    by norm_num [interpret_longevity_score]⟩
  · intro h
    unfold interpret_longevity_score
    split_ifs
    all_goals try exact ⟨rfl, rfl⟩
    all_goals exfalso
    all_goals linarith
  · intro h1 h2
    unfold interpret_longevity_score
    split_ifs
    all_goals try rfl
    all_goals exfalso
    all_goals linarith
  · intro h1 h2
    unfold interpret_longevity_score
    split_ifs
    all_goals try rfl
    all_goals exfalso
    all_goals linarith
  · intro h1 h2
    unfold interpret_longevity_score
    split_ifs
    all_goals try rfl
    all_goals exfalso
    all_goals linarith
  · intro h
    unfold interpret_longevity_score
    split_ifs
    all_goals try rfl
    all_goals exfalso
    all_goals linarith
  · intro t hst
    rw [categoryRank_interpret, categoryRank_interpret]
    split_ifs
    all_goals try norm_num
    all_goals exfalso
    all_goals linarith

/-- Witness for C2: instantiated at score 0.85, discharging the bucket
hypotheses concretely. -/
theorem c2_interpret_total_monotone_witness :
    (interpret_longevity_score 0.85).category = "Excellent" ∧
      (interpret_longevity_score 0.85).expected_lifespan = "5+ years" :=
  (c2_interpret_total_monotone 0.85).1 (by norm_num)

/-- A computation flagged ok indeed carries a value. -/
theorem exists_ok_of_isOk {α : Type} (x : Except String α)
    (h : exceptIsOk x = true) : ∃ a, x = .ok a := by
  cases x with
  | ok a => exact ⟨a, rfl⟩
  | error e => simp [exceptIsOk] at h

/-- Numeric-or-null values never make `pyLt` raise. -/
theorem pyLt_ok_of_numeric (v : Value) (h : numericOrNull (some v) = true)
    (q : ℚ) : ∃ b, pyLt v q = .ok b := by
  cases v with
  | num x => exact ⟨_, rfl⟩
  | str s => simp [numericOrNull] at h
  | bool b => exact ⟨_, rfl⟩

/-- Numeric-or-null values never make `pyGt` raise. -/
theorem pyGt_ok_of_numeric (v : Value) (h : numericOrNull (some v) = true)
    (q : ℚ) : ∃ b, pyGt v q = .ok b := by
  cases v with
  | num x => exact ⟨_, rfl⟩
  | str s => simp [numericOrNull] at h
  | bool b => exact ⟨_, rfl⟩

/-- The rating rule block never raises on numeric-or-null input. -/
theorem ratingRecs_isOk (v : Option Value) (h : numericOrNull v = true) :
    exceptIsOk (ratingRecs v) = true := by
  cases v with
  | none => rfl
  | some w =>
    obtain ⟨b1, e1⟩ := pyLt_ok_of_numeric w h 3.5
    obtain ⟨b2, e2⟩ := pyLt_ok_of_numeric w h 4.0
    simp only [ratingRecs]
    rw [e1]
    cases b1
    · rw [e2]; cases b2 <;> rfl
    · rfl

/-- The update-cadence rule block never raises on numeric-or-null input. -/
theorem updateRecs_isOk (v : Option Value) (h : numericOrNull v = true) :
    exceptIsOk (updateRecs v) = true := by
  cases v with
  | none => rfl
  | some w =>
    obtain ⟨b1, e1⟩ := pyGt_ok_of_numeric w h 90
    simp only [updateRecs]
    rw [e1]
    cases b1 <;> rfl

/-- The sentiment rule block never raises on numeric-or-null input. -/
theorem sentimentRecs_isOk (v : Option Value) (h : numericOrNull v = true) :
    exceptIsOk (sentimentRecs v) = true := by
  cases v with
  | none => rfl
  | some w =>
    obtain ⟨b1, e1⟩ := pyLt_ok_of_numeric w h 0.6
    simp only [sentimentRecs]
    rw [e1]
    cases b1 <;> rfl

/-- C7: every recommendation list `_generate_recommendations` produces has
length ≥ 2 (if fewer than two rule-based entries fired, the two generic
fillers are appended); it raises no exception on any record whose three
read metrics are absent, null, or numeric; and on the empty record it
returns exactly the two fillers (engagement, monetization). -/
theorem c7_recommendations_at_least_two (r : AppRecord) :
    (∀ l, generate_recommendations r = .ok l → 2 ≤ l.length)
    ∧ (metricsNumeric r = true →
        exceptIsOk (generate_recommendations r) = true)
    ∧ (generate_recommendations []).map
        (fun l => (l.length, l.map Recommendation.area)) =
        .ok (2, ["User Engagement", "Monetization"]) := by
  refine ⟨?_, ?_, by rfl⟩
  · intro l h
    unfold generate_recommendations at h
    split at h
    · exact Except.noConfusion h
    · split at h
      · exact Except.noConfusion h
      · split at h
        · exact Except.noConfusion h
        · rw [Except.ok.injEq] at h
          subst h
          split
          · simp only [List.length_append, List.length_cons, List.length_nil] at *
            omega
          · omega
  · intro hm
    unfold metricsNumeric at hm
    simp only [Bool.and_eq_true] at hm
    obtain ⟨⟨h1, h2⟩, h3⟩ := hm
    obtain ⟨a, ea⟩ := exists_ok_of_isOk _ (ratingRecs_isOk _ h1)
    obtain ⟨b, eb⟩ := exists_ok_of_isOk _ (updateRecs_isOk _ h2)
    obtain ⟨c, ec⟩ := exists_ok_of_isOk _ (sentimentRecs_isOk _ h3)
    unfold generate_recommendations
    rw [ea, eb, ec]
    rfl

/-- Witness for C7: on the fully-null/empty record, the hypotheses hold
concretely and at least the two filler recommendations are produced. -/
theorem c7_recommendations_at_least_two_witness :
    metricsNumeric [] = true ∧
      exceptIsOk (generate_recommendations []) = true :=
  ⟨rfl, (c7_recommendations_at_least_two []).2.1 rfl⟩

/-- C3: selection policy of `predict_app_longevity` over the two adapter
records. When both (non-empty) records are present the one with strictly
fewer null fields is chosen, a tie goes to the first (primary, iOS)
adapter, and a lone record is always chosen. -/
theorem c3_platform_selection (i a : AppRecord) (hi : i ≠ []) (ha : a ≠ []) :
    (countNulls i < countNulls a →
        selectAppData (some i) (some a) = (some i, some "iOS"))
    ∧ (countNulls a < countNulls i →
        selectAppData (some i) (some a) = (some a, some "Android"))
    ∧ (countNulls i = countNulls a →
        selectAppData (some i) (some a) = (some i, some "iOS"))
    ∧ selectAppData (some i) none = (some i, some "iOS")
    ∧ selectAppData none (some a) = (some a, some "Android") := by
  have hti : recTruthy (some i) = true := by
    cases i with
    | nil => exact absurd rfl hi
    | cons x xs => rfl
  have hta : recTruthy (some a) = true := by
    cases a with
    | nil => exact absurd rfl ha
    | cons x xs => rfl
  refine ⟨?_, ?_, ?_, ?_, ?_⟩
  · intro h
    simp only [selectAppData, hti, hta, Bool.and_self, if_true, Option.getD_some]
    rw [if_pos (by omega)]
  · intro h
    simp only [selectAppData, hti, hta, Bool.and_self, if_true, Option.getD_some]
    rw [if_neg (by omega)]
  · intro h
    simp only [selectAppData, hti, hta, Bool.and_self, if_true, Option.getD_some]
    rw [if_pos (by omega)]
  · simp only [selectAppData, hti, recTruthy, Bool.and_false, Bool.false_eq_true,
      if_false, if_true]
    rw [if_pos (show (!List.isEmpty i) = true from hti)]
  · simp only [selectAppData, hta, recTruthy, Bool.false_and, Bool.false_eq_true,
      if_false, if_true]
    rw [if_pos (show (!List.isEmpty a) = true from hta)]

/-- Witness for C3: concrete records with 1 null vs 2 nulls pick the
1-null record. -/
theorem c3_platform_selection_witness :
    selectAppData (some [("rating", some (.num 4)), ("price", none)])
        (some [("rating", none), ("price", none)]) =
      (some [("rating", some (.num 4)), ("price", none)], some "iOS") :=
  (c3_platform_selection _ _ (by simp) (by simp)).1 (by decide)

/-- Membership in a stable descending insertion. -/
theorem mem_insertDesc {α : Type} (key : α → ℚ) (x z : α) (l : List α) :
    z ∈ insertDesc key x l ↔ z = x ∨ z ∈ l := by
  induction l with
  | nil => simp [insertDesc]
  | cons y ys ih =>
    simp only [insertDesc]
    split
    · simp [List.mem_cons]
    · simp only [List.mem_cons, ih]
      tauto

/-- Insertion grows the list by one element. -/
theorem length_insertDesc {α : Type} (key : α → ℚ) (x : α) (l : List α) :
    (insertDesc key x l).length = l.length + 1 := by
  induction l with
  | nil => rfl
  | cons y ys ih =>
    simp only [insertDesc]
    split <;> simp [ih]

/-- Insertion preserves the descending-key invariant. -/
theorem pairwise_insertDesc {α : Type} (key : α → ℚ) (x : α) (l : List α)
    (h : l.Pairwise (fun a b => key b ≤ key a)) :
    (insertDesc key x l).Pairwise (fun a b => key b ≤ key a) := by
  induction l with
  | nil => simp [insertDesc]
  | cons y ys ih =>
    rw [List.pairwise_cons] at h
    obtain ⟨hy, hys⟩ := h
    simp only [insertDesc]
    split
    · rename_i hxy
      refine List.Pairwise.cons ?_ (List.Pairwise.cons hy hys)
      intro b hb
      rcases List.mem_cons.mp hb with rfl | hb
      · exact hxy
      · exact le_trans (hy b hb) hxy
    · rename_i hxy
      push_neg at hxy
      refine List.Pairwise.cons ?_ (ih hys)
      intro b hb
      rcases (mem_insertDesc key x b ys).mp hb with rfl | hb
      · exact le_of_lt hxy
      · exact hy b hb

/-- Sorting permutes membership. -/
theorem mem_sortDesc {α : Type} (key : α → ℚ) (z : α) (l : List α) :
    z ∈ sortDesc key l ↔ z ∈ l := by
  induction l with
  | nil => simp [sortDesc]
  | cons y ys ih =>
    simp only [sortDesc, List.foldr_cons] at *
    rw [mem_insertDesc, ih, List.mem_cons]

/-- Sorting preserves length. -/
theorem length_sortDesc {α : Type} (key : α → ℚ) (l : List α) :
    (sortDesc key l).length = l.length := by
  induction l with
  | nil => rfl
  | cons y ys ih =>
    simp only [sortDesc, List.foldr_cons] at *
    rw [length_insertDesc, ih]
    rfl

/-- The sorted list is descending in the key. -/
theorem pairwise_sortDesc {α : Type} (key : α → ℚ) (l : List α) :
    (sortDesc key l).Pairwise (fun a b => key b ≤ key a) := by
  induction l with
  | nil => simp [sortDesc]
  | cons y ys ih =>
    simp only [sortDesc, List.foldr_cons] at *
    exact pairwise_insertDesc key y _ ih

/-- A successful effectful map preserves length. -/
theorem mapE_ok_length {α β : Type} (f : α → Except String β) :
    ∀ {l : List α} {l2 : List β}, mapE f l = .ok l2 → l2.length = l.length := by
  intro l
  induction l with
  | nil =>
    intro l2 h
    cases h
    rfl
  | cons x xs ih =>
    intro l2 h
    unfold mapE at h
    split at h
    · exact Except.noConfusion h
    · split at h
      · exact Except.noConfusion h
      · rename_i s1 y hy s2 ys hys
        cases h
        simp [ih hys]

/-- Every output of a successful effectful map comes from some input. -/
theorem mapE_ok_mem {α β : Type} (f : α → Except String β) :
    ∀ {l : List α} {l2 : List β}, mapE f l = .ok l2 →
      ∀ y ∈ l2, ∃ x ∈ l, f x = .ok y := by
  intro l
  induction l with
  | nil =>
    intro l2 h
    cases h
    intro y hy
    exact absurd hy (List.not_mem_nil y)
  | cons x xs ih =>
    intro l2 h
    unfold mapE at h
    split at h
    · exact Except.noConfusion h
    · split at h
      · exact Except.noConfusion h
      · rename_i s1 y hy s2 ys hys
        cases h
        intro z hz
        rcases List.mem_cons.mp hz with rfl | hz
        · exact ⟨x, List.mem_cons_self x xs, hy⟩
        · obtain ⟨a, ha, hfa⟩ := ih hys z hz
          exact ⟨a, List.mem_cons_of_mem x ha, hfa⟩

/-- A successful effectful map carries pairwise relations along any
compatibility between the element function's inputs and outputs. -/
theorem mapE_ok_pairwise {α β : Type} (f : α → Except String β)
    (S : α → α → Prop) (R : β → β → Prop)
    (hc : ∀ x y fx fy, f x = .ok fx → f y = .ok fy → S x y → R fx fy) :
    ∀ {l : List α} {l2 : List β}, l.Pairwise S → mapE f l = .ok l2 →
      l2.Pairwise R := by
  intro l
  induction l with
  | nil =>
    intro l2 _ h
    cases h
    exact List.Pairwise.nil
  | cons x xs ih =>
    intro l2 hp h
    rw [List.pairwise_cons] at hp
    obtain ⟨hx, hxs⟩ := hp
    unfold mapE at h
    split at h
    · exact Except.noConfusion h
    · split at h
      · exact Except.noConfusion h
      · rename_i s1 y hy s2 ys hys
        cases h
        refine List.Pairwise.cons ?_ (ih hxs hys)
        intro b hb
        obtain ⟨a, ha, hfa⟩ := mapE_ok_mem f hys b hb
        exact hc x a y b hy hfa (hx a ha)

/-- Structure of a successfully built factor entry. -/
theorem mkFactor_ok (fi : List (String × ℚ)) (p : String × Value) (f : Factor)
    (h : mkFactor fi p = .ok f) :
    f.feature = p.1 ∧ f.value = p.2 ∧ dictFind fi p.1 = some f.importance ∧
      f.impact = (if 0 < f.importance then "positive" else "negative") := by
  unfold mkFactor at h
  split at h
  · exact Except.noConfusion h
  · split at h
    · exact Except.noConfusion h
    · rename_i s1 imp heq s2 d hd
      cases h
      exact ⟨rfl, rfl, heq, rfl⟩

/-- Elements of the available-features list are non-null record fields
whose name carries a feature importance. -/
theorem mem_availableFeatures (fi : List (String × ℚ)) (r : AppRecord)
    (p : String × Value) (h : p ∈ availableFeatures fi r) :
    (p.1, some p.2) ∈ r ∧ dictHasKey fi p.1 = true := by
  unfold availableFeatures at h
  rw [List.mem_filterMap] at h
  obtain ⟨q, hq, he⟩ := h
  rcases q with ⟨k, v⟩
  cases v with
  | none => exact Option.noConfusion he
  | some w =>
    simp only at he
    split at he
    · cases he
      exact ⟨hq, by assumption⟩
    · exact Option.noConfusion he

/-- C8: a successfully computed contributing-factors list has exactly
`min 5 |available|` entries (truncation to at most 5), is sorted in
descending order of the signed importance value (so a large negative
importance sorts below a small positive one), draws every entry from the
non-null record fields that appear among the feature importances, and tags
each entry "positive" exactly when its importance is strictly positive
("negative" otherwise, including zero). -/
theorem c8_contributing_factors (fi : List (String × ℚ)) (r : AppRecord)
    (cf : List Factor) (h : contributingFactors fi r = .ok cf) :
    cf.length = min 5 (availableFeatures fi r).length
    ∧ cf.Pairwise (fun f g => g.importance ≤ f.importance)
    ∧ ∀ f ∈ cf, (f.feature, some f.value) ∈ r
        ∧ dictFind fi f.feature = some f.importance
        ∧ f.impact = (if 0 < f.importance then "positive" else "negative") := by
  unfold contributingFactors at h
  refine ⟨?_, ?_, ?_⟩
  · rw [mapE_ok_length _ h, List.length_take, length_sortDesc]
  · refine mapE_ok_pairwise _ (fun p q => fiKey fi q ≤ fiKey fi p) _ ?_ ?_ h
    · intro x y fx fy hfx hfy hS
      obtain ⟨_, _, hfix, _⟩ := mkFactor_ok fi x fx hfx
      obtain ⟨_, _, hfiy, _⟩ := mkFactor_ok fi y fy hfy
      have ex : fiKey fi x = fx.importance := by
        rw [fiKey, hfix]
        rfl
      have ey : fiKey fi y = fy.importance := by
        rw [fiKey, hfiy]
        rfl
      rw [ex, ey] at hS
      exact hS
    · exact List.Pairwise.sublist (List.take_sublist 5 _)
        (pairwise_sortDesc (fiKey fi) _)
  · intro f hf
    obtain ⟨p, hp, hpf⟩ := mapE_ok_mem _ h f hf
    have hpa : p ∈ availableFeatures fi r :=
      (mem_sortDesc (fiKey fi) p _).mp (List.mem_of_mem_take hp)
    obtain ⟨hmem, _⟩ := mem_availableFeatures fi r p hpa
    obtain ⟨hfe, hv, hfi, him⟩ := mkFactor_ok fi p f hpf
    refine ⟨?_, ?_, him⟩
    · rw [hfe, hv]
      exact hmem
    · rw [hfe]
      exact hfi

/-- Witness for C8: concrete importances with a small positive value for
"rating" and a large negative one for "price"; the computed list keeps the
positive driver first, demonstrating the signed (non-absolute) sort. -/
theorem c8_contributing_factors_witness :
    ([{ feature := "rating", value := .num 4, importance := 2
        impact := "positive", description := "App rating of 4/5" },
      { feature := "price", value := .num 0, importance := -10
        impact := "negative", description := "Free app" }] :
      List Factor).Pairwise (fun f g => g.importance ≤ f.importance) :=
  (c8_contributing_factors [("rating", 2), ("price", -10)]
    [("rating", some (.num 4)), ("price", some (.num 0))] _ (by rfl)).2.1

/-- C4: when the registry is empty and re-discovery finds nothing,
`load_model` (a total Lean function, so it never raises) returns the
all-empty bundle: `model` is `None`, `scaler` is `None`, and
`feature_importances` is the empty mapping. -/
theorem c4_load_model_empty_registry (fs : FS) (cfg : Config) (mgr : Manager)
    (name? : Option String) (hm : mgr.models = [])
    (hd : discover_models fs cfg = []) :
    (load_model fs cfg mgr name?).2 = emptyBundle
    ∧ emptyBundle.model = none ∧ emptyBundle.scaler = none
    ∧ emptyBundle.feature_importances = [] := by
  refine ⟨?_, rfl, rfl, rfl⟩
  unfold load_model
  simp [hm, hd, dictFind]

/-- Witness for C4: the concrete empty manager with a filesystem that
discovers nothing. -/
theorem c4_load_model_empty_registry_witness :
    (load_model fsW cfgW { models := [], default_model_name := "rf_model.joblib" }
      (some "anything")).2 = emptyBundle
    ∧ emptyBundle.model = none ∧ emptyBundle.scaler = none
    ∧ emptyBundle.feature_importances = [] :=
  c4_load_model_empty_registry fsW cfgW _ (some "anything") rfl rfl

/-- C5: a name absent from the registry triggers one re-discovery; if it
is still absent and the re-discovered registry is non-empty, `load_model`
(total, never raises) deterministically resolves to the first registry
entry in iteration order and returns that entry's loaded bundle. -/
theorem c5_load_model_fallback_first (fs : FS) (cfg : Config) (mgr : Manager)
    (name k0 : String) (e0 : Entry) (rest : List (String × Entry))
    (h0 : dictFind mgr.models name = none)
    (hd : discover_models fs cfg = (k0, e0) :: rest)
    (hk : dictFind ((k0, e0) :: rest) name = none) :
    load_model fs cfg mgr (some name) =
      ({ mgr with models := (k0, e0) :: rest }, loadResolved fs k0 e0) := by
  unfold load_model
  simp only [h0, Option.isNone_none, if_true, hd, hk]
  simp [dictFind]

/-- Witness for C5: asking the fixture for a missing name falls back to
the sole discovered entry. -/
theorem c5_load_model_fallback_first_witness :
    load_model fsV cfgW { models := [], default_model_name := "rf_model.joblib" }
      (some "missing_name") =
      ({ models := [("rf_model", entV)], default_model_name := "rf_model.joblib" },
        loadResolved fsV "rf_model" entV) :=
  c5_load_model_fallback_first fsV cfgW _ "missing_name" "rf_model" entV []
    rfl (by rfl) rfl

/-- C9 (amended): for a loaded name that resolves in the registry and
contains no extension separator (no dot), `load_model` resolves to that
entry — reading the model from its `full_path` — and an immediate
`get_model_info` on the same name reports exactly that entry, hence the
same backing file path. -/
theorem c9_info_matches_load (fs : FS) (cfg : Config) (mgr : Manager)
    (name : String) (e : Entry) (he : dictFind mgr.models name = some e)
    (hnd : containsDot name = false) :
    load_model fs cfg mgr (some name) = (mgr, loadResolved fs name e)
    ∧ get_model_info mgr (some name) = some e
    ∧ (get_model_info mgr (some name)).map Entry.full_path =
        some e.full_path := by
  refine ⟨?_, ?_, ?_⟩
  · unfold load_model
    have hne : mgr.models.isEmpty = false := by
      cases hms : mgr.models with
      | nil => rw [hms] at he; simp [dictFind] at he
      | cons p ps => rfl
    simp [he, hne]
  · unfold get_model_info
    simp [hnd, he]
  · unfold get_model_info
    simp [hnd, he]

/-- Witness for C9 (amended): the dot-free fixture name "rf_model". -/
theorem c9_info_matches_load_witness :
    load_model fsW cfgW mgrW (some "rf_model") =
      (mgrW, loadResolved fsW "rf_model" entW)
    ∧ get_model_info mgrW (some "rf_model") = some entW
    ∧ (get_model_info mgrW (some "rf_model")).map Entry.full_path =
        some entW.full_path :=
  c9_info_matches_load fsW cfgW mgrW "rf_model" entW rfl rfl

/-- C9 counterexample: a registry key may itself contain a dot (discovery
keys a file `model.v2.joblib` as `model.v2`, since `splitext` strips only
the last extension). `load_model "model.v2"` resolves that entry and loads
its model from `/models/model.v2.joblib`, but `get_model_info "model.v2"`
strips the ".v2" suffix, misses the registry, and returns the empty dict —
reporting no path at all, not the path load used. -/
theorem c9_counterexample_dotted_name :
    dictFind mgrC9.models "model.v2" = some entC9
    ∧ (load_model fsC9 cfgW mgrC9 (some "model.v2")).2.model.isSome = true
    ∧ get_model_info mgrC9 (some "model.v2") = none :=
  ⟨rfl, rfl, rfl⟩

/-- In-place key replacement leaves lookups of other keys unchanged. -/
theorem find_map_set {α : Type} (ps : List (String × α)) (k k' : String)
    (v : α) (h : k' ≠ k) :
    ((ps.map (fun p => if p.1 == k then (k, v) else p)).find?
        (fun p => p.1 == k')).map Prod.snd =
      (ps.find? (fun p => p.1 == k')).map Prod.snd := by
  induction ps with
  | nil => rfl
  | cons p ps ih =>
    simp only [List.map_cons, List.find?_cons]
    by_cases hp : p.1 = k
    · have hpb : (p.1 == k) = true := by simpa using hp
      simp only [hpb, if_true]
      have h1 : (k == k') = false := by
        simp only [beq_eq_false_iff_ne, ne_eq]
        exact fun hh => h hh.symm
      have h2 : (p.1 == k') = false := by
        rw [hp]
        exact h1
      simp only [h1, h2, Bool.false_eq_true]
      exact ih
    · have hp2 : (p.1 == k) = false := by simpa using hp
      simp only [hp2, Bool.false_eq_true, if_false]
      by_cases hq : p.1 = k'
      · have hqb : (p.1 == k') = true := by simpa using hq
        simp only [hqb]
      · have hq2 : (p.1 == k') = false := by simpa using hq
        simp only [hq2, Bool.false_eq_true]
        exact ih

/-- Writing one dict key leaves every other key's binding unchanged. -/
theorem dictFind_dictSet_ne {α : Type} (d : List (String × α)) (k k' : String)
    (v : α) (h : k' ≠ k) :
    dictFind (dictSet d k v) k' = dictFind d k' := by
  unfold dictSet
  split
  · unfold dictFind
    exact find_map_set d k k' v h
  · unfold dictFind
    rw [List.find?_append]
    have h2 : List.find? (fun p => p.1 == k') [(k, v)] = none := by
      simp only [List.find?_cons, List.find?_nil]
      have h1 : (k == k') = false := by
        simp only [beq_eq_false_iff_ne, ne_eq]
        exact fun hh => h hh.symm
      simp [h1]
    rw [h2]
    simp

/-- A record whose `rating` binding is null makes the shared sentiment
formula raise `TypeError`. -/
theorem sentimentStep_null (ad : AppRecord)
    (h : dictFind ad "rating" = some none) :
    sentimentStep ad =
      .error "TypeError: unsupported operand type for NoneType and float" := by
  unfold sentimentStep recGet
  rw [h]

/-- The release-date step never touches the `rating` binding. -/
theorem iosDate1_rating (f : String → Except String ℤ) (best : ITunesApp)
    (ad ad' : AppRecord) (h : iosDate1 f best ad = .ok ad') :
    dictFind ad' "rating" = dictFind ad "rating" := by
  unfold iosDate1 at h
  split at h
  · cases h
    rfl
  · split at h
    · exact Except.noConfusion h
    · cases h
      exact dictFind_dictSet_ne _ _ _ _ (by decide)

/-- The update-date step never touches the `rating` binding. -/
theorem iosDate2_rating (f : String → Except String ℤ) (best : ITunesApp)
    (ad ad' : AppRecord) (h : iosDate2 f best ad = .ok ad') :
    dictFind ad' "rating" = dictFind ad "rating" := by
  unfold iosDate2 at h
  split at h
  · cases h
    rfl
  · split at h
    · exact Except.noConfusion h
    · cases h
      exact dictFind_dictSet_ne _ _ _ _ (by decide)

/-- The conditional date fields never touch the `rating` binding. -/
theorem iosDates_rating (f : String → Except String ℤ) (best : ITunesApp)
    (ad ad' : AppRecord) (h : iosDates f best ad = .ok ad') :
    dictFind ad' "rating" = dictFind ad "rating" := by
  unfold iosDates at h
  split at h
  · exact Except.noConfusion h
  · rename_i ad1 hs1
    rw [iosDate2_rating _ _ _ _ h]
    exact iosDate1_rating _ _ _ _ hs1

/-- The info-element loop never touches the `rating` binding. -/
theorem infoLoop_rating (ts : List String) : ∀ (ad ad' : AppRecord),
    infoLoop ad ts = .ok ad' →
    dictFind ad' "rating" = dictFind ad "rating" := by
  induction ts with
  | nil =>
    intro ad ad' h
    cases h
    rfl
  | cons t ts ih =>
    intro ad ad' h
    simp only [infoLoop] at h
    split at h
    · rw [ih _ _ h, dictFind_dictSet_ne _ _ _ _ (by decide)]
    · split at h
      · split at h
        · rw [ih _ _ h]
        · split at h
          · exact Except.noConfusion h
          · rw [ih _ _ h, dictFind_dictSet_ne _ _ _ _ (by decide)]
      · rw [ih _ _ h]

/-- C10: in either adapter, a found candidate whose extracted rating is
null never yields a record with a null rating: the sentiment formula
raises `TypeError` on the null rating and the adapter's blanket handler
turns the whole fetch into `None`. The hypotheses fix the successful
steps leading up to the formula (candidate found, id extracted, dates and
info-loop succeed). -/
theorem c10_null_rating_null_record :
    (∀ (env : IosEnv) (app_name : String) (n : ℤ) (apps : List ITunesApp)
        (best : ITunesApp) (tid : ℤ) (ad1 : AppRecord),
      env.response = .ok n apps →
      0 < n →
      pyMax (fun x => similarity env.ratio (x.trackName.getD "") app_name) apps
        = .ok best →
      best.trackId = some tid →
      iosDates env.daysSinceIso best (iosRecord best tid) = .ok ad1 →
      best.averageUserRating = none →
      fetch_app_store_data env app_name = none)
    ∧ (∀ (env : PlayEnv) (app_name : String) (links : List String)
        (href : String) (grp : List Char) (soup : PlaySoup)
        (ad1 ad2 : AppRecord),
      env.searchResult = .ok (200, href :: links) →
      searchIdGroup href.toList = some grp →
      env.detailsResult = .ok (200, soup) →
      ratingStep soup.ratingAria
        (titleStep soup.title (playTemplate (String.mk grp) app_name))
        = .ok ad1 →
      dictFind ad1 "rating" = some none →
      infoLoop ad1 soup.infoTexts = .ok ad2 →
      fetch_play_store_data env app_name = none) := by
  constructor
  · intro env app_name n apps best tid ad1 hresp hn hmax htid hdates hr
    have hrec : dictFind (iosRecord best tid) "rating" = some none := by
      simp [iosRecord, dictFind, List.find?, hr]
    have had1 : dictFind ad1 "rating" = some none := by
      rw [iosDates_rating _ _ _ _ hdates, hrec]
    unfold fetch_app_store_data fetch_app_store_body
    rw [hresp]
    simp only [gt_iff_lt, hn, if_true, hmax, htid, hdates,
      sentimentStep_null _ had1]
  · intro env app_name links href grp soup ad1 ad2 hsearch hid hdetails
      hrs had1 hinfo
    have had2 : dictFind ad2 "rating" = some none := by
      rw [infoLoop_rating _ _ _ hinfo, had1]
    unfold fetch_play_store_data fetch_play_store_body
    rw [hsearch]
    simp only [String.toList] at hid
    simp [hid, hdetails, hrs, hinfo, sentimentStep_null _ had2]

/-- Witness for C10: concrete environments where each store finds a
candidate whose rating cannot be extracted; both fetches return `None`. -/
theorem c10_null_rating_null_record_witness :
    fetch_app_store_data iosEnvNullRating "SomeApp" = none
    ∧ fetch_play_store_data playEnvNullRating "SomeApp" = none :=
  ⟨c10_null_rating_null_record.1 iosEnvNullRating "SomeApp" 1
      [iosAppNullRating] iosAppNullRating 7 _ rfl (by decide) rfl rfl rfl rfl,
   c10_null_rating_null_record.2 playEnvNullRating "SomeApp" []
      "/store/apps/details?id=com.example.app" ("com.example.app".toList)
      playSoupNullRating _ _ rfl rfl rfl rfl rfl rfl⟩

/-- The only early result the model-resolution section can produce is the
`{app_name, error: "No prediction model available"}` dict. -/
theorem loadSection_early (env : PredictEnv) (mgr : Manager) (svc : Service)
    (app_name : String) (mgr1 : Manager) (svc1 : Service)
    (res : List (String × J))
    (h : loadSection env mgr svc app_name = (mgr1, svc1, some res)) :
    res = errResult app_name "No prediction model available" := by
  unfold loadSection at h
  repeat' split at h
  all_goals simp only [Prod.mk.injEq, Option.some.injEq, reduceCtorEq,
    and_false, false_and] at h
  all_goals exact h.2.2.symm

/-- Every successful result of the scoring section echoes the input app
name and contains the `error` key exactly when it lacks the
`predicted_longevity` key (the no-data dict has `error` and no score; the
success dict has a score and no `error`). -/
theorem scoreSection_ok_fields (env : PredictEnv) (svc : Service)
    (app_name : String) (res : List (String × J))
    (h : scoreSection env svc app_name = .ok res) :
    dictFind res "app_name" = some (.str app_name)
    ∧ (dictHasKey res "error" = true ↔
        dictHasKey res "predicted_longevity" = false) := by
  simp only [scoreSection] at h
  split at h
  · rw [Except.ok.injEq] at h
    subst h
    exact ⟨rfl, by simp [errResult, dictHasKey]⟩
  · split at h
    · exact Except.noConfusion h
    · split at h
      · exact Except.noConfusion h
      · split at h
        · exact Except.noConfusion h
        · split at h
          · exact Except.noConfusion h
          · rename_i results1 hcf
            split at h
            · exact Except.noConfusion h
            · rw [Except.ok.injEq] at h
              subst h
              split at hcf
              · rw [Except.ok.injEq] at hcf
                subst hcf
                constructor
                · simp [dictSet, dictHasKey, dictFind]
                · simp [dictSet, dictHasKey]
              · split at hcf
                · exact Except.noConfusion hcf
                · rw [Except.ok.injEq] at hcf
                  subst hcf
                  constructor
                  · simp [dictSet, dictHasKey, dictFind]
                  · simp [dictSet, dictHasKey]

/-- C1: `predict_app_longevity` is total (no exception reaches the
caller); every result echoes the input `app_name`; a result carries the
`error` key exactly when it lacks `predicted_longevity` (so callers
discriminate by the presence of `error` alone); and whenever an internal
scoring step raises with message `e`, the result is the two-key
`{app_name, error: "Error analyzing app: " + e}` dict, embedding the
exception text. -/
theorem c1_predict_error_channel (env : PredictEnv) (mgr : Manager)
    (svc : Service) (app_name : String) (cc : Bool) :
    dictFind (predict_app_longevity env mgr svc app_name cc).2.2 "app_name"
        = some (.str app_name)
    ∧ (dictHasKey (predict_app_longevity env mgr svc app_name cc).2.2 "error"
          = true ↔
        dictHasKey (predict_app_longevity env mgr svc app_name cc).2.2
          "predicted_longevity" = false)
    ∧ (∀ e, (loadSection env mgr svc app_name).2.2 = none →
        scoreSection env (loadSection env mgr svc app_name).2.1 app_name
          = .error e →
        (predict_app_longevity env mgr svc app_name cc).2.2 =
          errResult app_name ("Error analyzing app: " ++ e)) := by
  rcases hl : loadSection env mgr svc app_name with ⟨mgr1, svc1, earlyO⟩
  have hp : predict_app_longevity env mgr svc app_name cc =
      (match earlyO with
       | some res => (mgr1, svc1, res)
       | none =>
         match scoreSection env svc1 app_name with
         | .ok res => (mgr1, svc1, res)
         | .error e =>
           (mgr1, svc1, errResult app_name ("Error analyzing app: " ++ e))) := by
    simp only [predict_app_longevity, hl]
    cases earlyO <;> rfl
  cases earlyO with
  | some res =>
    have hres := loadSection_early env mgr svc app_name mgr1 svc1 res hl
    subst hres
    rw [hp]
    refine ⟨rfl, by simp [errResult, dictHasKey], ?_⟩
    intro e hnone _
    simp [hl] at hnone
  | none =>
    cases hs : scoreSection env svc1 app_name with
    | ok r =>
      obtain ⟨h1, h2⟩ := scoreSection_ok_fields env svc1 app_name r hs
      simp only [hp, hs]
      refine ⟨h1, h2, ?_⟩
      intro e _ herr
      exact Except.noConfusion herr
    | error e0 =>
      simp only [hp, hs]
      refine ⟨rfl, by simp [errResult, dictHasKey], ?_⟩
      intro e _ herr
      rw [Except.error.injEq] at herr
      rw [herr]

/-- Witness for C1: a loaded model whose `predict` raises "boom"; the
result is exactly the error dict embedding that message. -/
theorem c1_predict_error_channel_witness :
    (predict_app_longevity envBoom mgrW (svcLoaded modelBoom) "TestApp"
        false).2.2 =
      errResult "TestApp" ("Error analyzing app: " ++ "boom") :=
  (c1_predict_error_channel envBoom mgrW (svcLoaded modelBoom) "TestApp"
    false).2.2 "boom" rfl (by rfl)

/-- C6: with a model loaded and both adapters returning `None`, the
prediction result is exactly the two-key `{app_name, error}` dict (and
the manager/service state is untouched). -/
theorem c6_no_data_exact_result (env : PredictEnv) (mgr : Manager)
    (svc : Service) (app_name : String) (cc : Bool) (m : Model)
    (hm : svc.model = some m)
    (hi : fetch_app_store_data env.ios app_name = none)
    (ha : fetch_play_store_data env.play app_name = none) :
    predict_app_longevity env mgr svc app_name cc =
      (mgr, svc,
        [("app_name", .str app_name),
         ("error",
           .str "Could not find sufficient data for this app on either platform")]) := by
  simp only [predict_app_longevity, loadSection, hm]
  simp only [scoreSection, hi, ha]
  rfl

/-- Witness for C6: concrete environments where the iTunes search is
empty and the Play search got a 404. -/
theorem c6_no_data_exact_result_witness :
    predict_app_longevity envNoData mgrW (svcLoaded modelOne) "GhostApp"
        false =
      (mgrW, svcLoaded modelOne,
        [("app_name", .str "GhostApp"),
         ("error",
           .str "Could not find sufficient data for this app on either platform")]) :=
  c6_no_data_exact_result envNoData mgrW (svcLoaded modelOne) "GhostApp"
    false modelOne rfl rfl rfl

end ALS
